import Mathlib

/-!
Verification of the MCP session lifecycle and authorization orchestrator:
a shallow embedding of `src/mcp_client/session_manager.py`,
`src/mcp_client/token_storage.py` and `src/auth_server/auth_server.py`,
with theorems settling the specified properties of the session cache,
eager batch initialization, cleanup, the dual-tier credential store and
the OAuth callback endpoint.
-/

/-! ## Generic helpers: Python dict as an ordered association list -/

/-- Lookup in an ordered association list: `d.get(key)` on a Python dict
whose items are kept in insertion order. -/
def alookup {α : Type} : List (String × α) → String → Option α
  | [], _ => none
  | (k, v) :: rest, key => if k = key then some v else alookup rest key

/-- Assignment `d[key] = v` on a Python dict: overwrite in place if the key
exists (keeping its position), otherwise append at the end. -/
def ainsert {α : Type} : List (String × α) → String → α → List (String × α)
  | [], key, v => [(key, v)]
  | (k, v0) :: rest, key, v =>
      if k = key then (k, v) :: rest else (k, v0) :: ainsert rest key v

/-- Python `repr` of a list of strings, as produced by f-string interpolation
of `list(d.keys())`: for example `[\x27a\x27, \x27b\x27]`. -/
def pyList (names : List String) : String :=
  "[" ++ String.intercalate ", " (names.map (fun n => "\x27" ++ n ++ "\x27")) ++ "]"

/-- Character-list prefix test, used to define substring containment. -/
def startsWithChars : List Char → List Char → Bool
  | [], _ => true
  | _ :: _, [] => false
  | a :: as, b :: bs => if a = b then startsWithChars as bs else false

/-- Character-list containment test: the needle occurs contiguously in the hay. -/
def containsChars (needle : List Char) : List Char → Bool
  | [] => startsWithChars needle []
  | h :: t => startsWithChars needle (h :: t) || containsChars needle t

/-- Substring test on strings: `strIncludes hay needle` holds when `needle`
occurs contiguously inside `hay`. -/
def strIncludes (hay needle : String) : Bool :=
  containsChars needle.data hay.data

/-! ## Session manager data model

Shallow embedding of `MCPSessionManager` (`src/mcp_client/session_manager.py`).
Sessions and auth servers are identified by natural-number ids allocated from
a counter in a `World`, which also records which sessions / auth servers are
currently open and how many times a transport connector has been invoked.
The outcome of each transport connection attempt (including
`session.initialize()`) is given by a `ConnEnv` oracle.
-/

/-- Transport-specific server configuration: `StdioServerConfig`,
`SSEServerConfig` and `HTTPServerConfig` from the config module. -/
inductive ServerConfig where
  | stdio (command : String)
  | sse (url : String)
  | http (url : String)
deriving DecidableEq

/-- The slice of the `State` object the session manager reads:
`state.mcp_config.mcpServers` as an ordered name-to-config mapping. -/
structure StateObj where
  servers : List (String × ServerConfig)
deriving DecidableEq

/-- Oracle for the outcome of transport connection attempts: `ok name` says
whether connecting to `name` (context-manager entry plus
`session.initialize()`) succeeds, and `errMsg name` is the text of the
exception raised when it fails. -/
structure ConnEnv where
  ok : String → Bool
  errMsg : String → String

/-- A resource entered on the manager's `AsyncExitStack`: a started
`AuthServer` or an open client session. -/
inductive Resource where
  | auth (id : Nat)
  | sess (id : Nat)
deriving DecidableEq

/-- Ambient state outside the manager object: the id allocator, which
sessions and auth servers are open, and how many connector calls happened. -/
structure World where
  nextId : Nat
  openSessions : List Nat
  openAuth : List Nat
  connCalls : Nat
deriving DecidableEq

/-- The `MCPSessionManager` instance state: the `_sessions` dict, the
`_exit_stack` (most recently acquired resource first, `none` when unset),
the `_initialized` flag and the optional `_state` object. -/
structure Manager where
  sessions : List (String × Nat)
  exitStack : Option (List Resource)
  initialized : Bool
  state : Option StateObj
deriving DecidableEq

/-- Python exceptions raised by the manager. -/
inductive Err where
  | runtimeError (msg : String)
  | valueError (msg : String)
deriving DecidableEq

/-- A freshly constructed `MCPSessionManager()`. -/
def mkManager : Manager :=
  { sessions := [], exitStack := none, initialized := false, state := none }

/-- `MCPSessionManager.set_state`: store the state and create the exit stack
if it does not exist yet. -/
def set_state (m : Manager) (st : StateObj) : Manager :=
  { m with state := some st, exitStack := some (m.exitStack.getD []) }

/-- Close one resource: exiting its context removes it from the open set. -/
def closeRes (w : World) : Resource → World
  | .auth i => { w with openAuth := w.openAuth.erase i }
  | .sess i => { w with openSessions := w.openSessions.erase i }

/-- `AsyncExitStack.aclose`: close all resources, most recently acquired
first (the stack list is kept most-recent-first). -/
def closeAll (w : World) (rs : List Resource) : World :=
  rs.foldl closeRes w

/-- `MCPSessionManager.cleanup`: close the exit stack if present, drop it,
clear the session dict and reset the `_initialized` flag. -/
def cleanup (w : World) (m : Manager) : World × Manager :=
  let w1 := match m.exitStack with
    | some rs => closeAll w rs
    | none => w
  (w1, { m with sessions := [], exitStack := none, initialized := false })

/-- The stdio branch of `initialize_server`: invoke the connector, and on
success allocate a session, push it on the stack and cache it. -/
def connectOnDemandStdio (env : ConnEnv) (w : World) (m : Manager)
    (stack : List Resource) (name : String) : Except Err Nat × World × Manager :=
  let w1 := { w with connCalls := w.connCalls + 1 }
  if env.ok name then
    let sid := w1.nextId
    let w2 := { w1 with nextId := sid + 1, openSessions := sid :: w1.openSessions }
    (.ok sid, w2,
      { m with sessions := ainsert m.sessions name sid,
               exitStack := some (Resource.sess sid :: stack) })
  else
    (.error (.runtimeError ("Failed to initialize MCP server \x27" ++ name ++ "\x27: "
        ++ env.errMsg name)),
      w1, { m with exitStack := some stack })

/-- The SSE / streamable-HTTP branch of `initialize_server`: start a
per-session `AuthServer`, enter it on the exit stack, then invoke the
connector for the session itself. On failure the already-entered auth
server stays on the stack (the `except` clause only wraps and re-raises). -/
def connectOnDemandRemote (env : ConnEnv) (w : World) (m : Manager)
    (stack : List Resource) (name : String) : Except Err Nat × World × Manager :=
  let aid := w.nextId
  let w1 := { w with nextId := aid + 1, openAuth := aid :: w.openAuth }
  let stack1 := Resource.auth aid :: stack
  let w2 := { w1 with connCalls := w1.connCalls + 1 }
  if env.ok name then
    let sid := w2.nextId
    let w3 := { w2 with nextId := sid + 1, openSessions := sid :: w2.openSessions }
    (.ok sid, w3,
      { m with sessions := ainsert m.sessions name sid,
               exitStack := some (Resource.sess sid :: stack1) })
  else
    (.error (.runtimeError ("Failed to initialize MCP server \x27" ++ name ++ "\x27: "
        ++ env.errMsg name)),
      w2, { m with exitStack := some stack1 })

/-- `MCPSessionManager.initialize_server`: fail if no state is set, return a
cached session, otherwise resolve the config (with the two ValueError
branches), ensure the exit stack exists and connect by transport kind. -/
def initialize_server (env : ConnEnv) (w : World) (m : Manager) (name : String) :
    Except Err Nat × World × Manager :=
  match m.state with
  | none => (.error (.runtimeError "State not set. Call set_state() first."), w, m)
  | some st =>
    match alookup m.sessions name with
    | some s => (.ok s, w, m)
    | none =>
      if st.servers.isEmpty then
        (.error (.valueError "No MCP servers configured"), w, m)
      else
        match alookup st.servers name with
        | none =>
            (.error (.valueError ("Server \x27" ++ name ++ "\x27 not found. Available servers: "
                ++ pyList (st.servers.map Prod.fst))), w, m)
        | some cfg =>
            let stack := m.exitStack.getD []
            match cfg with
            | .stdio _ => connectOnDemandStdio env w m stack name
            | .sse _ => connectOnDemandRemote env w m stack name
            | .http _ => connectOnDemandRemote env w m stack name

/-- `MCPSessionManager.get_session_async`: return the cached session or
initialize the server on demand. -/
def get_session_async (env : ConnEnv) (w : World) (m : Manager) (name : String) :
    Except Err Nat × World × Manager :=
  match alookup m.sessions name with
  | some s => (.ok s, w, m)
  | none => initialize_server env w m name

/-- `MCPSessionManager.get_session` (synchronous): return the cached session;
otherwise raise ValueError listing the cached names when the manager was
batch-initialized without state, else RuntimeError pointing at the async
path. The method only reads `self._sessions`, so the manager is returned
unchanged. -/
def get_session (m : Manager) (name : String) : Except Err Nat × Manager :=
  match alookup m.sessions name with
  | some s => (.ok s, m)
  | none =>
    if m.initialized && m.state.isNone then
      (.error (.valueError ("Server \x27" ++ name ++ "\x27 not found. Available servers: "
          ++ pyList (m.sessions.map Prod.fst))), m)
    else
      (.error (.runtimeError ("Session for \x27" ++ name
          ++ "\x27 not initialized. Use get_session_async() or initialize_server() first.")), m)

/-- The loop body of `initialize_all_sessions`: connect each configured
server in order (all three transports share the batch auth server, so each
step is exactly one connector invocation); on failure call `cleanup` and
raise the wrapped RuntimeError. -/
def initAllLoop (env : ConnEnv) (w : World) (m : Manager) :
    List (String × ServerConfig) → Except Err Unit × World × Manager
  | [] => (.ok (), w, m)
  | (name, _cfg) :: rest =>
    let w1 := { w with connCalls := w.connCalls + 1 }
    if env.ok name then
      let sid := w1.nextId
      let w2 := { w1 with nextId := sid + 1, openSessions := sid :: w1.openSessions }
      let m1 := { m with sessions := ainsert m.sessions name sid,
                         exitStack := some (Resource.sess sid :: m.exitStack.getD []) }
      initAllLoop env w2 m1 rest
    else
      let cl := cleanup w1 m
      (.error (.runtimeError ("Failed to initialize MCP server \x27" ++ name ++ "\x27: "
          ++ env.errMsg name)),
        cl.1, cl.2)

/-- `MCPSessionManager.initialize_all_sessions`: no-op when already
initialized or nothing is configured; otherwise install a fresh exit stack,
start the shared `AuthServer` (an `async with` block around the loop, so it
is stopped on both the success and the error path), run the loop, and mark
the manager initialized on success. -/
def initialize_all_sessions (env : ConnEnv) (w : World) (m : Manager) (st : StateObj) :
    Except Err Unit × World × Manager :=
  if m.initialized then (.ok (), w, m)
  else if st.servers.isEmpty then (.ok (), w, m)
  else
    let m1 := { m with exitStack := some [] }
    let aid := w.nextId
    let w1 := { w with nextId := aid + 1, openAuth := aid :: w.openAuth }
    match initAllLoop env w1 m1 st.servers with
    | (.ok _, w2, m2) =>
        (.ok (), { w2 with openAuth := w2.openAuth.erase aid }, { m2 with initialized := true })
    | (.error e, w2, m2) =>
        (.error e, { w2 with openAuth := w2.openAuth.erase aid }, m2)

/-! ## Credential store data model

Shallow embedding of `KeychainTokenStorageWithFallback`
(`src/mcp_client/token_storage.py`). Serialized token / client-info records
are opaque strings; the fallback file is an optional JSON object modelled
as a partial map from key to serialized value. Each operation takes as
oracle parameters the outcome of the keychain call it may perform and
whether the file I/O it may perform raises; the world counts how many times
the keyring API was touched. -/

/-- Outcome of one keyring API call: a returned value, or an exception. -/
inductive KcRes (α : Type) where
  | ok (a : α)
  | err
deriving DecidableEq

/-- Per-instance store state: the `keychain_enabled` flag. -/
structure Store where
  keychain_enabled : Bool
deriving DecidableEq

/-- World of a credential store: the fallback file content (`none` when the
file does not exist) and a counter of keyring API touches. -/
structure StoreWorld where
  file : Option (String → Option String)
  kcTouches : Nat

/-- `KeychainTokenStorageWithFallback.__init__` probe
(`_test_keychain_availability`): one keyring read; an exception disables
the keychain for this instance. -/
def mkStore (probe : KcRes (Option String)) (w : StoreWorld) : Store × StoreWorld :=
  let w1 := { w with kcTouches := w.kcTouches + 1 }
  match probe with
  | .ok _ => ({ keychain_enabled := true }, w1)
  | .err => ({ keychain_enabled := false }, w1)

/-- `_get_tokens_from_file`: `None` when the file does not exist; on any
read error the exception is caught, logged and `None` returned; otherwise
the value under the given key (`None` when absent). Shared shape with
`_get_client_info_from_file`, which differs only in the key. -/
def read_file_key (key : String) (readOk : Bool) (w : StoreWorld) : Option String :=
  match w.file with
  | none => none
  | some d => if readOk then d key else none

/-- `_update_file_data`: read the existing JSON object (empty when the file
is absent), merge the update dict over it (`dict.update`), and write it
back; any error is logged and re-raised, leaving the file as it was. -/
def update_file_data (upd : List (String × String)) (writeOk : Bool) (w : StoreWorld) :
    Except Unit Unit × StoreWorld :=
  if writeOk then
    let existing : String → Option String := match w.file with
      | none => fun _ => none
      | some d => d
    let merged : String → Option String := fun k =>
      match alookup upd k with
      | some v => some v
      | none => existing k
    (.ok (), { w with file := some merged })
  else
    (.error (), w)

/-- `get_tokens`: try the keychain when enabled (a `None` payload falls
through to the file without disabling; an exception disables the keychain),
then the fallback file. -/
def get_tokens (kc : KcRes (Option String)) (readOk : Bool) (s : Store) (w : StoreWorld) :
    Except Unit (Option String) × Store × StoreWorld :=
  if s.keychain_enabled then
    let w1 := { w with kcTouches := w.kcTouches + 1 }
    match kc with
    | .ok (some d) => (.ok (some d), s, w1)
    | .ok none => (.ok (read_file_key "tokens" readOk w1), s, w1)
    | .err => (.ok (read_file_key "tokens" readOk w1), { s with keychain_enabled := false }, w1)
  else
    (.ok (read_file_key "tokens" readOk w), s, w)

/-- `set_tokens`: write to the keychain when enabled (returning on success,
disabling and falling back on exception), else merge into the fallback file
under the `tokens` key. -/
def set_tokens (v : String) (kc : KcRes Unit) (writeOk : Bool) (s : Store) (w : StoreWorld) :
    Except Unit Unit × Store × StoreWorld :=
  if s.keychain_enabled then
    let w1 := { w with kcTouches := w.kcTouches + 1 }
    match kc with
    | .ok _ => (.ok (), s, w1)
    | .err =>
        let r := update_file_data [("tokens", v)] writeOk w1
        (r.1, { s with keychain_enabled := false }, r.2)
  else
    let r := update_file_data [("tokens", v)] writeOk w
    (r.1, s, r.2)

/-- `get_client_info`: same pattern as `get_tokens` with the
`client_info` record. -/
def get_client_info (kc : KcRes (Option String)) (readOk : Bool) (s : Store) (w : StoreWorld) :
    Except Unit (Option String) × Store × StoreWorld :=
  if s.keychain_enabled then
    let w1 := { w with kcTouches := w.kcTouches + 1 }
    match kc with
    | .ok (some d) => (.ok (some d), s, w1)
    | .ok none => (.ok (read_file_key "client_info" readOk w1), s, w1)
    | .err =>
        (.ok (read_file_key "client_info" readOk w1), { s with keychain_enabled := false }, w1)
  else
    (.ok (read_file_key "client_info" readOk w), s, w)

/-- `set_client_info`: same pattern as `set_tokens` with the
`client_info` key. -/
def set_client_info (v : String) (kc : KcRes Unit) (writeOk : Bool) (s : Store) (w : StoreWorld) :
    Except Unit Unit × Store × StoreWorld :=
  if s.keychain_enabled then
    let w1 := { w with kcTouches := w.kcTouches + 1 }
    match kc with
    | .ok _ => (.ok (), s, w1)
    | .err =>
        let r := update_file_data [("client_info", v)] writeOk w1
        (r.1, { s with keychain_enabled := false }, r.2)
  else
    let r := update_file_data [("client_info", v)] writeOk w
    (r.1, s, r.2)

/-- One public credential-store operation together with the oracle outcomes
of the keychain and file sub-operations it may perform. -/
inductive StOp where
  | opGetTokens (kc : KcRes (Option String)) (readOk : Bool)
  | opSetTokens (v : String) (kc : KcRes Unit) (writeOk : Bool)
  | opGetClientInfo (kc : KcRes (Option String)) (readOk : Bool)
  | opSetClientInfo (v : String) (kc : KcRes Unit) (writeOk : Bool)

/-- Effect of one operation on the store instance and its world. -/
def stStep (s : Store) (w : StoreWorld) : StOp → Store × StoreWorld
  | .opGetTokens kc readOk => (get_tokens kc readOk s w).2
  | .opSetTokens v kc writeOk => (set_tokens v kc writeOk s w).2
  | .opGetClientInfo kc readOk => (get_client_info kc readOk s w).2
  | .opSetClientInfo v kc writeOk => (set_client_info v kc writeOk s w).2

/-- Run a sequence of credential-store operations. -/
def runOps (s : Store) (w : StoreWorld) : List StOp → Store × StoreWorld
  | [] => (s, w)
  | op :: rest =>
      let sw := stStep s w op
      runOps sw.1 sw.2 rest

/-! ## OAuth callback receiver data model

Shallow embedding of `AuthServer` (`src/auth_server/auth_server.py`):
the fields touched by the `/callback` endpoint, with the pending future
modelled as `none` (no future), `some none` (pending) or
`some (some v)` (resolved with `v`). Query parameters arrive as a partial
map from parameter name to raw value. -/

/-- Value a pending authorization resolves to: a `(code, state)` pair
(`set_result`) or an exception message (`set_exception`). -/
inductive FutVal where
  | res (code : String) (st : Option String)
  | exn (msg : String)
deriving DecidableEq

/-- The auth server state read and written by the callback endpoint. -/
structure AuthSt where
  fut : Option (Option FutVal)
  cbCode : Option String
  cbState : Option String
  loopSet : Bool
deriving DecidableEq

/-- An HTTP response handed back to the browser. -/
structure HttpResp where
  status : Nat
  body : String
deriving DecidableEq

/-- Resolve the pending future, exactly as the endpoint guards it:
only when a future exists, is not yet done, and the main loop reference is
set (`call_soon_threadsafe` needs the captured loop); otherwise the state
is left as-is and the anomaly is merely logged. -/
def resolveIfPending (a : AuthSt) (v : FutVal) : AuthSt :=
  match a.fut with
  | some none => if a.loopSet then { a with fut := some (some v) } else a
  | _ => a

/-- The error page body for the `error` branch. -/
def errorPage (e desc : String) : String :=
  "<html><body><h2>Authentication Error</h2><p>" ++ e ++ ": " ++ desc ++ "</p></body></html>"

/-- The error page body for the missing-code branch. -/
def noCodePage : String :=
  "<html><body><h2>Error</h2><p>No authorization code received</p></body></html>"

/-- The success page body (HTTP 200 branch). -/
def successPage : String :=
  "\n                <html>\n                <body>\n                    <h2>Authorization Successful</h2>\n                    <p>You have successfully authorized the MCP client. You can now close this window.</p>\n                </body>\n                </html>\n                "

/-- The missing-code branch: resolve the pending result as the
`No authorization code received` failure and answer HTTP 400. -/
def handleNoCode (a : AuthSt) : HttpResp × AuthSt :=
  ({ status := 400, body := noCodePage },
    resolveIfPending a (.exn "No authorization code received"))

/-- The success branch: store the code and state on the instance, resolve
the pending result with `(code, state)` and answer HTTP 200. -/
def handleSuccess (q : String → Option String) (c : String) (a : AuthSt) : HttpResp × AuthSt :=
  let a1 := { a with cbCode := some c, cbState := q "state" }
  ({ status := 200, body := successPage },
    resolveIfPending a1 (.res c (q "state")))

/-- The part of the endpoint after the `if error:` test: Python truthiness
on `code`, so an absent or empty `code` takes the missing-code branch. -/
def afterErrorCheck (q : String → Option String) (a : AuthSt) : HttpResp × AuthSt :=
  match q "code" with
  | none => handleNoCode a
  | some c => if c = "" then handleNoCode a else handleSuccess q c a

/-- `callback_endpoint`: the full `/callback` handler. `if error:` is a
Python truthiness test, so only a present and non-empty `error` value takes
the error branch; `error_description` defaults to `Unknown error` only when
the key is absent (`query_params.get` default). -/
def callback_endpoint (q : String → Option String) (a : AuthSt) : HttpResp × AuthSt :=
  match q "error" with
  | none => afterErrorCheck q a
  | some e =>
    if e = "" then afterErrorCheck q a
    else
      let desc := (q "error_description").getD "Unknown error"
      ({ status := 400, body := errorPage e desc },
        resolveIfPending a (.exn ("OAuth error: " ++ e ++ " - " ++ desc)))

/-! ## Auxiliary definitions for the proofs -/

/-- Effect of closing a resource stack (most recent first) on the list of
open session ids: each session resource erases its id, auth resources do
not touch it. -/
def sessEffect (l : List Nat) : List Resource → List Nat
  | [] => l
  | .sess i :: rs => sessEffect (l.erase i) rs
  | .auth _ :: rs => sessEffect l rs

/-! ## Concrete instances used by witnesses and counterexamples -/

/-- A connector environment where every connection succeeds. -/
def envOk : ConnEnv :=
  { ok := fun _ => true, errMsg := fun _ => "boom" }

/-- A connector environment where only server `b` fails to connect. -/
def envBFails : ConnEnv :=
  { ok := fun n => !(n == "b"), errMsg := fun _ => "boom" }

/-- A registry with a single stdio server `a`. -/
def stA : StateObj := { servers := [("a", ServerConfig.stdio "cmd")] }

/-- A registry with stdio server `a` followed by SSE server `b`. -/
def stAB : StateObj :=
  { servers := [("a", ServerConfig.stdio "cmd"), ("b", ServerConfig.sse "http://x")] }

/-- An empty (but present) registry: a config whose `mcpServers` dict has
no entries. -/
def stEmpty : StateObj := { servers := [] }

/-- A fresh world: no open resources, counters at zero. -/
def w0 : World := { nextId := 0, openSessions := [], openAuth := [], connCalls := 0 }

/-- A manager with state bound to the one-server registry. -/
def mA : Manager := set_state mkManager stA

/-- A manager with state bound to the empty registry. -/
def mEmpty : Manager := set_state mkManager stEmpty

/-- A manager as left by legacy batch initialization without state:
one cached session, `_initialized` set, no `_state`. -/
def mCached : Manager :=
  { sessions := [("a", 7)], exitStack := none, initialized := true, state := none }

/-- First on-demand acquisition of server `a` on the fresh world. -/
def run1 : Except Err Nat × World × Manager := initialize_server envOk w0 mA "a"

/-- World and manager after `cleanup()` following the first acquisition. -/
def afterClean : World × Manager := cleanup run1.2.1 run1.2.2

/-- A connect request issued after `cleanup()`. -/
def run2 : Except Err Nat × World × Manager :=
  initialize_server envOk afterClean.1 afterClean.2 "a"

/-- Requesting an unknown server against the empty registry. -/
def c9run : Except Err Nat × World × Manager := initialize_server envOk w0 mEmpty "x"

/-- A store instance with the keychain disabled. -/
def sOff : Store := { keychain_enabled := false }

/-- A store instance with the keychain enabled. -/
def sOn : Store := { keychain_enabled := true }

/-- A fallback-file JSON object holding `tokens`, `client_info` and an
unrelated key. -/
def dFile : String → Option String := fun k =>
  if k = "tokens" then some "oldTok"
  else if k = "client_info" then some "oldCI"
  else if k = "extra" then some "keepme" else none

/-- A store world whose fallback file exists with content `dFile`. -/
def wFile : StoreWorld := { file := some dFile, kcTouches := 0 }

/-- A callback query with an empty `error` parameter and nothing else. -/
def qEmptyError : String → Option String := fun k => if k = "error" then some "" else none

/-- A callback query carrying `error=access_denied&error_description=User declined`. -/
def qDenied : String → Option String := fun k =>
  if k = "error" then some "access_denied"
  else if k = "error_description" then some "User declined" else none

/-- A callback query carrying `code=abc123&state=xyz`. -/
def qCode : String → Option String := fun k =>
  if k = "code" then some "abc123" else if k = "state" then some "xyz" else none

/-- An auth server state with a registered, unresolved pending
authorization (as set up by `handle_callback`). -/
def aPending : AuthSt :=
  { fut := some none, cbCode := none, cbState := none, loopSet := true }

/-- An auth server state with no pending future registered. -/
def aIdle : AuthSt :=
  { fut := none, cbCode := none, cbState := none, loopSet := false }

/-! ## Helper lemmas -/

theorem alookup_ainsert {α : Type} (l : List (String × α)) (key : String) (v : α) :
    alookup (ainsert l key v) key = some v := by
  induction l with
  | nil => simp [ainsert, alookup]
  | cons hd tl ih =>
      obtain ⟨k, v0⟩ := hd
      by_cases h : k = key
      · simp [ainsert, alookup, h]
      · simp [ainsert, alookup, h, ih]

theorem startsWithChars_append (l r : List Char) :
    startsWithChars l (l ++ r) = true := by
  induction l with
  | nil => simp [startsWithChars]
  | cons a as ih => simp [startsWithChars, ih]

theorem containsChars_of_startsWith (n : List Char) :
    ∀ hay, startsWithChars n hay = true → containsChars n hay = true := by
  intro hay h
  cases hay with
  | nil => simpa [containsChars] using h
  | cons hd tl => simp [containsChars, h]

theorem containsChars_append_left (n : List Char) (pre : List Char) :
    ∀ rest, containsChars n rest = true → containsChars n (pre ++ rest) = true := by
  induction pre with
  | nil => intro rest h; simpa using h
  | cons p ps ih =>
      intro rest h
      simp only [List.cons_append, containsChars, Bool.or_eq_true]
      exact Or.inr (ih rest h)

theorem strIncludes_append (pre needle : String) :
    strIncludes (pre ++ needle) needle = true := by
  unfold strIncludes
  rw [String.data_append]
  exact containsChars_append_left needle.data pre.data needle.data
    (containsChars_of_startsWith needle.data needle.data
      (by simpa using startsWithChars_append needle.data []))

theorem closeAll_openSessions (rs : List Resource) : ∀ w : World,
    (closeAll w rs).openSessions = sessEffect w.openSessions rs := by
  induction rs with
  | nil => intro w; rfl
  | cons r rest ih =>
      intro w
      cases r with
      | auth i =>
          show (closeAll (closeRes w (.auth i)) rest).openSessions = _
          rw [ih]
          rfl
      | sess i =>
          show (closeAll (closeRes w (.sess i)) rest).openSessions = _
          rw [ih]
          rfl

theorem closeAll_connCalls (rs : List Resource) : ∀ w : World,
    (closeAll w rs).connCalls = w.connCalls := by
  induction rs with
  | nil => intro w; rfl
  | cons r rest ih =>
      intro w
      cases r with
      | auth i => exact ih (closeRes w (.auth i))
      | sess i => exact ih (closeRes w (.sess i))

theorem cleanup_sessions_nil (w : World) (m : Manager) : (cleanup w m).2.sessions = [] := rfl

theorem cleanup_state_eq (w : World) (m : Manager) : (cleanup w m).2.state = m.state := rfl

theorem cleanup_connCalls (w : World) (m : Manager) :
    (cleanup w m).1.connCalls = w.connCalls := by
  unfold cleanup
  cases m.exitStack with
  | none => rfl
  | some rs => exact closeAll_connCalls rs w

theorem cleanup_openSessions (w : World) (m : Manager) (acc : List Resource)
    (hst : m.exitStack = some acc) :
    (cleanup w m).1.openSessions = sessEffect w.openSessions acc := by
  unfold cleanup
  rw [hst]
  exact closeAll_openSessions acc w

theorem initAllLoop_err (env : ConnEnv) :
    ∀ (servers : List (String × ServerConfig)) (w : World) (m : Manager)
      (acc : List Resource) (e : Err) (w' : World) (m' : Manager),
      m.exitStack = some acc →
      initAllLoop env w m servers = (.error e, w', m') →
      m'.sessions = [] ∧ w'.openSessions = sessEffect w.openSessions acc := by
  intro servers
  induction servers with
  | nil =>
      intro w m acc e w' m' hst h
      simp [initAllLoop] at h
  | cons hd rest ih =>
      obtain ⟨name, cfg⟩ := hd
      intro w m acc e w' m' hst h
      by_cases hok : env.ok name = true
      · simp only [initAllLoop, hok, if_true, hst, Option.getD_some] at h
        have := ih _ _ (Resource.sess w.nextId :: acc) e w' m' rfl h
        refine ⟨this.1, ?_⟩
        rw [this.2]
        show sessEffect ((w.nextId :: w.openSessions).erase w.nextId) acc = _
        rw [List.erase_cons_head]
      · simp only [initAllLoop, hok, if_false, Bool.false_eq_true, Prod.mk.injEq] at h
        obtain ⟨-, hw, hm⟩ := h
        refine ⟨hm ▸ rfl, ?_⟩
        rw [← hw]
        exact cleanup_openSessions { w with connCalls := w.connCalls + 1 } m acc hst

theorem initialize_server_caches (env : ConnEnv) (w : World) (m : Manager) (name : String)
    (s : Nat) (w' : World) (m' : Manager)
    (h : initialize_server env w m name = (.ok s, w', m')) :
    alookup m'.sessions name = some s ∧ m'.state = m.state := by
  unfold initialize_server at h
  cases hst : m.state with
  | none => rw [hst] at h; simp at h
  | some st =>
      rw [hst] at h
      cases hc : alookup m.sessions name with
      | some s0 =>
          rw [hc] at h
          simp only [Prod.mk.injEq, Except.ok.injEq] at h
          obtain ⟨hs, hw, hm⟩ := h
          subst hs hw hm
          exact ⟨hc, hst⟩
      | none =>
          rw [hc] at h
          by_cases he : st.servers.isEmpty
          · simp [he] at h
          · simp only [he, if_false, Bool.false_eq_true] at h
            cases hcfg : alookup st.servers name with
            | none => rw [hcfg] at h; simp at h
            | some cfg =>
                rw [hcfg] at h
                cases cfg with
                | stdio command =>
                    simp only [connectOnDemandStdio] at h
                    by_cases hok : env.ok name = true
                    · simp only [hok, if_true, Prod.mk.injEq, Except.ok.injEq] at h
                      obtain ⟨hs, hw, hm⟩ := h
                      subst hs hw hm
                      exact ⟨alookup_ainsert m.sessions name _, hst⟩
                    · simp [hok] at h
                | sse url =>
                    simp only [connectOnDemandRemote] at h
                    by_cases hok : env.ok name = true
                    · simp only [hok, if_true, Prod.mk.injEq, Except.ok.injEq] at h
                      obtain ⟨hs, hw, hm⟩ := h
                      subst hs hw hm
                      exact ⟨alookup_ainsert m.sessions name _, hst⟩
                    · simp [hok] at h
                | http url =>
                    simp only [connectOnDemandRemote] at h
                    by_cases hok : env.ok name = true
                    · simp only [hok, if_true, Prod.mk.injEq, Except.ok.injEq] at h
                      obtain ⟨hs, hw, hm⟩ := h
                      subst hs hw hm
                      exact ⟨alookup_ainsert m.sessions name _, hst⟩
                    · simp [hok] at h

theorem initialize_server_fresh_success (env : ConnEnv) (w : World) (m : Manager)
    (name : String) (st : StateObj) (cfg : ServerConfig)
    (hst : m.state = some st) (hmiss : alookup m.sessions name = none)
    (hcfg : alookup st.servers name = some cfg) (hok : env.ok name = true) :
    ∃ s w' m', initialize_server env w m name = (.ok s, w', m') ∧
      alookup m'.sessions name = some s ∧ w'.connCalls = w.connCalls + 1 := by
  have hne : st.servers.isEmpty = false := by
    cases hs : st.servers with
    | nil => rw [hs] at hcfg; simp [alookup] at hcfg
    | cons hd tl => rfl
  unfold initialize_server
  rw [hst, hmiss]
  simp only [hne, Bool.false_eq_true, if_false]
  rw [hcfg]
  cases cfg with
  | stdio command =>
      unfold connectOnDemandStdio
      simp only [hok, if_true]
      exact ⟨_, _, _, rfl, alookup_ainsert m.sessions name _, rfl⟩
  | sse url =>
      unfold connectOnDemandRemote
      simp only [hok, if_true]
      exact ⟨_, _, _, rfl, alookup_ainsert m.sessions name _, rfl⟩
  | http url =>
      unfold connectOnDemandRemote
      simp only [hok, if_true]
      exact ⟨_, _, _, rfl, alookup_ainsert m.sessions name _, rfl⟩

/-! ## Claim theorems -/

/-- C1: for a server registered in the manager's state, once one session
acquisition (`get_session_async` or `initialize_server`) succeeds with
session `s`, a second acquisition through either entry point returns the
same session object `s` and leaves the world untouched — in particular the
connector-invocation count is unchanged and the result does not depend on
the second call's connector environment, so no transport connector runs
again. -/
theorem C1_second_acquisition_is_cache_hit (env env2 : ConnEnv) (w w' : World)
    (m m' : Manager) (name : String) (s : Nat) (st : StateObj) (cfg : ServerConfig)
    (hst : m.state = some st) (_hreg : alookup st.servers name = some cfg)
    (h : get_session_async env w m name = (.ok s, w', m') ∨
         initialize_server env w m name = (.ok s, w', m')) :
    get_session_async env2 w' m' name = (.ok s, w', m') ∧
    initialize_server env2 w' m' name = (.ok s, w', m') := by
  have key : alookup m'.sessions name = some s ∧ m'.state = m.state := by
    rcases h with h | h
    · unfold get_session_async at h
      cases hc : alookup m.sessions name with
      | some s0 =>
          rw [hc] at h
          simp only [Prod.mk.injEq, Except.ok.injEq] at h
          obtain ⟨hs, hw, hm⟩ := h
          subst hs hw hm
          exact ⟨hc, rfl⟩
      | none =>
          rw [hc] at h
          exact initialize_server_caches env w m name s w' m' h
    · exact initialize_server_caches env w m name s w' m' h
  refine ⟨?_, ?_⟩
  · unfold get_session_async
    rw [key.1]
  · unfold initialize_server
    rw [key.2.trans hst, key.1]

/-- C1 witness: after the successful on-demand acquisition of stdio server
`a`, both re-acquisition entry points return the same session id `0` with
the world unchanged. -/
theorem C1_witness :
    get_session_async envOk run1.2.1 run1.2.2 "a" = (Except.ok 0, run1.2.1, run1.2.2) ∧
    initialize_server envOk run1.2.1 run1.2.2 "a" = (Except.ok 0, run1.2.1, run1.2.2) :=
  C1_second_acquisition_is_cache_hit envOk envOk w0 run1.2.1 mA run1.2.2 "a" 0 stA
    (ServerConfig.stdio "cmd") rfl rfl (Or.inr rfl)

/-- C2: eager batch initialization is all-or-nothing: whenever
`initialize_all_sessions` raises, the manager's session map is empty, the
set of open sessions is exactly what it was before the call (every session
opened by the batch has been released), and in particular no session with
an id allocated during the batch remains open. -/
theorem C2_batch_all_or_nothing (env : ConnEnv) (w : World) (m : Manager) (st : StateObj)
    (e : Err) (w' : World) (m' : Manager)
    (h : initialize_all_sessions env w m st = (.error e, w', m'))
    (hwf : ∀ i ∈ w.openSessions, i < w.nextId) :
    m'.sessions = [] ∧ w'.openSessions = w.openSessions ∧
    ∀ i, w.nextId ≤ i → i ∉ w'.openSessions := by
  unfold initialize_all_sessions at h
  cases hinitb : m.initialized with
  | true => rw [hinitb] at h; simp at h
  | false =>
      rw [hinitb] at h
      simp only [Bool.false_eq_true, if_false] at h
      by_cases hemp : st.servers.isEmpty
      · simp [hemp] at h
      · simp only [hemp, if_false, Bool.false_eq_true] at h
        split at h
        · simp at h
        · rename_i eloop w2 m2 heq
          simp only [Prod.mk.injEq, Except.error.injEq] at h
          obtain ⟨he, hw, hm⟩ := h
          have key := initAllLoop_err env st.servers _ _ [] eloop w2 m2 rfl heq
          have hopen : w'.openSessions = w.openSessions := by
            rw [← hw]
            exact key.2
          refine ⟨hm ▸ key.1, hopen, ?_⟩
          intro i hle hmem
          rw [hopen] at hmem
          exact absurd (hwf i hmem) (by omega)

/-- C2 witness: a two-server batch where the second server fails to connect
ends with an empty session map and no open sessions. -/
theorem C2_witness :
    (initialize_all_sessions envBFails w0 mkManager stAB).2.2.sessions = [] ∧
    (initialize_all_sessions envBFails w0 mkManager stAB).2.1.openSessions = w0.openSessions :=
  have h := C2_batch_all_or_nothing envBFails w0 mkManager stAB
    (Err.runtimeError "Failed to initialize MCP server \x27b\x27: boom")
    { nextId := 2, openSessions := [], openAuth := [], connCalls := 2 } mkManager
    rfl (by intro i hi; simp [w0] at hi)
  ⟨h.1, h.2.1⟩

/-- C4 counterexample: against the claim that `cleanup()` is terminal, a
connect request issued after `cleanup()` does not fail fast: it succeeds,
caches a fresh session (id 1) and invokes the transport connector once
more. -/
theorem C4_counterexample :
    run2.1 = Except.ok 1 ∧ run2.2.2.sessions = [("a", 1)] ∧
    run2.2.1.connCalls = afterClean.1.connCalls + 1 :=
  ⟨rfl, rfl, rfl⟩

/-- C4 amended: `cleanup()` resets rather than terminally closes the
manager. After `cleanup()` a call to `initialize_server` for a server that
is configured in the (still set) state succeeds whenever the connector
does: it re-creates the exit stack, performs one fresh connector
invocation and caches a new session. Only a manager whose state was never
set fails fast (with the `State not set` RuntimeError, which `cleanup()`
does not influence). -/
theorem C4_amended_cleanup_resets (env : ConnEnv) (w : World) (m : Manager) (name : String)
    (st : StateObj) (cfg : ServerConfig)
    (hst : m.state = some st) (hcfg : alookup st.servers name = some cfg)
    (hok : env.ok name = true) :
    (∃ s w' m', initialize_server env (cleanup w m).1 (cleanup w m).2 name = (.ok s, w', m') ∧
      alookup m'.sessions name = some s ∧ w'.connCalls = w.connCalls + 1) ∧
    (∀ w1 m1, m1.state = none →
      initialize_server env (cleanup w1 m1).1 (cleanup w1 m1).2 name =
        ((.error (.runtimeError "State not set. Call set_state() first.")),
          (cleanup w1 m1).1, (cleanup w1 m1).2)) := by
  constructor
  · obtain ⟨s, w', m', h1, h2, h3⟩ := initialize_server_fresh_success env (cleanup w m).1
      (cleanup w m).2 name st cfg ((cleanup_state_eq w m).trans hst) rfl hcfg hok
    exact ⟨s, w', m', h1, h2, by rw [h3, cleanup_connCalls]⟩
  · intro w1 m1 hnone
    unfold initialize_server
    rw [(cleanup_state_eq w1 m1).trans hnone]

/-- C4 witness: after cleaning up the manager bound to the one-server
registry, re-initializing server `a` succeeds with a fresh session and one
further connector call, while a state-less manager still fails fast. -/
theorem C4_amended_witness :
    (∃ s w' m', initialize_server envOk (cleanup w0 mA).1 (cleanup w0 mA).2 "a" =
        (.ok s, w', m') ∧
      alookup m'.sessions "a" = some s ∧ w'.connCalls = w0.connCalls + 1) ∧
    (∀ w1 m1, m1.state = none →
      initialize_server envOk (cleanup w1 m1).1 (cleanup w1 m1).2 "a" =
        ((.error (.runtimeError "State not set. Call set_state() first.")),
          (cleanup w1 m1).1, (cleanup w1 m1).2)) :=
  C4_amended_cleanup_resets envOk w0 mA "a" stA (ServerConfig.stdio "cmd") rfl rfl rfl

/-- C9 counterexample: with an empty (but configured) server registry, the
request for unknown server `x` raises ValueError with the message
`No MCP servers configured`, which does not include the rendered list of
known server names (here the empty list `[]`). -/
theorem C9_counterexample :
    c9run = (Except.error (Err.valueError "No MCP servers configured"), w0, mEmpty) ∧
    strIncludes "No MCP servers configured" (pyList (stEmpty.servers.map Prod.fst)) = false :=
  ⟨rfl, rfl⟩

/-- C9 amended: for a server name with no cached session that is absent
from a non-empty configured registry, both `initialize_server` and
`get_session_async` raise a ValueError whose message contains the rendered
list of the registry's server names (with an empty registry the error is
the distinct `No MCP servers configured` message). -/
theorem C9_amended_unknown_server (env : ConnEnv) (w : World) (m : Manager) (name : String)
    (st : StateObj)
    (hst : m.state = some st) (hne : st.servers ≠ [])
    (hmiss : alookup m.sessions name = none) (habs : alookup st.servers name = none) :
    initialize_server env w m name =
      (.error (.valueError ("Server \x27" ++ name ++ "\x27 not found. Available servers: "
        ++ pyList (st.servers.map Prod.fst))), w, m) ∧
    strIncludes ("Server \x27" ++ name ++ "\x27 not found. Available servers: "
        ++ pyList (st.servers.map Prod.fst)) (pyList (st.servers.map Prod.fst)) = true ∧
    get_session_async env w m name =
      (.error (.valueError ("Server \x27" ++ name ++ "\x27 not found. Available servers: "
        ++ pyList (st.servers.map Prod.fst))), w, m) := by
  have hemp : st.servers.isEmpty = false := by
    cases hs : st.servers with
    | nil => exact absurd hs hne
    | cons hd tl => rfl
  have h1 : initialize_server env w m name =
      (.error (.valueError ("Server \x27" ++ name ++ "\x27 not found. Available servers: "
        ++ pyList (st.servers.map Prod.fst))), w, m) := by
    unfold initialize_server
    rw [hst, hmiss]
    simp only [hemp, Bool.false_eq_true, if_false]
    rw [habs]
  refine ⟨h1, strIncludes_append _ _, ?_⟩
  unfold get_session_async
  rw [hmiss]
  exact h1

/-- C9 witness: requesting unknown server `x` against the one-server
registry yields the ValueError whose message contains the rendered name
list. -/
theorem C9_amended_witness :
    initialize_server envOk w0 mA "x" =
      (.error (.valueError ("Server \x27x\x27 not found. Available servers: "
        ++ pyList (stA.servers.map Prod.fst))), w0, mA) ∧
    strIncludes ("Server \x27x\x27 not found. Available servers: "
        ++ pyList (stA.servers.map Prod.fst)) (pyList (stA.servers.map Prod.fst)) = true ∧
    get_session_async envOk w0 mA "x" =
      (.error (.valueError ("Server \x27x\x27 not found. Available servers: "
        ++ pyList (stA.servers.map Prod.fst))), w0, mA) :=
  C9_amended_unknown_server envOk w0 mA "x" stA rfl (by simp [stA]) rfl rfl

/-- C10: the synchronous `get_session` never connects: it returns the
manager unchanged in every case; with a cached session it returns that
session; with no cached session it raises — ValueError listing the cached
server names when the manager was batch-initialized without state
(`_initialized` set and `_state` unset), otherwise RuntimeError directing
the caller to `get_session_async()` / `initialize_server()`. -/
theorem C10_sync_get_session (m : Manager) (name : String) :
    (get_session m name).2 = m ∧
    (∀ s, alookup m.sessions name = some s → (get_session m name).1 = Except.ok s) ∧
    (alookup m.sessions name = none → m.initialized = true → m.state = none →
      (get_session m name).1 = Except.error (Err.valueError ("Server \x27" ++ name
        ++ "\x27 not found. Available servers: " ++ pyList (m.sessions.map Prod.fst)))) ∧
    (alookup m.sessions name = none → (m.initialized = false ∨ m.state ≠ none) →
      (get_session m name).1 = Except.error (Err.runtimeError ("Session for \x27" ++ name
        ++ "\x27 not initialized. Use get_session_async() or initialize_server() first."))) := by
  refine ⟨?_, ?_, ?_, ?_⟩
  · unfold get_session
    cases hc : alookup m.sessions name with
    | some s => rfl
    | none =>
        by_cases hb : (m.initialized && m.state.isNone) = true
        · rw [hb]; rfl
        · simp only [hb, Bool.false_eq_true, if_false]
  · intro s hc
    unfold get_session
    rw [hc]
  · intro hc hi hs
    unfold get_session
    rw [hc]
    simp [hi, hs]
  · intro hc hd
    unfold get_session
    rw [hc]
    have hb : (m.initialized && m.state.isNone) = false := by
      rcases hd with hd | hd
      · simp [hd]
      · cases ho : m.state with
        | none => exact absurd ho hd
        | some st => simp [ho]
    simp [hb]

/-- C10 witness: a cached name returns its session, a missing name on a
batch-initialized state-less manager raises the ValueError listing cached
names, and a missing name on a state-bearing manager raises the
RuntimeError pointing at the async path. -/
theorem C10_witness :
    (get_session mCached "a").1 = Except.ok 7 ∧
    (get_session mCached "x").1 = Except.error (Err.valueError ("Server \x27x\x27 not found. "
      ++ "Available servers: " ++ pyList (mCached.sessions.map Prod.fst))) ∧
    (get_session mA "z").1 = Except.error (Err.runtimeError ("Session for \x27z\x27 "
      ++ "not initialized. Use get_session_async() or initialize_server() first.")) :=
  ⟨(C10_sync_get_session mCached "a").2.1 7 rfl,
   (C10_sync_get_session mCached "x").2.2.1 rfl rfl rfl,
   (C10_sync_get_session mA "z").2.2.2 rfl (Or.inl rfl)⟩

theorem update_file_data_kcTouches (upd : List (String × String)) (writeOk : Bool)
    (w : StoreWorld) : (update_file_data upd writeOk w).2.kcTouches = w.kcTouches := by
  unfold update_file_data
  cases writeOk <;> rfl

theorem stStep_disabled (s : Store) (w : StoreWorld) (op : StOp)
    (h : s.keychain_enabled = false) :
    (stStep s w op).1 = s ∧ (stStep s w op).2.kcTouches = w.kcTouches := by
  cases op with
  | opGetTokens kc readOk =>
      simp only [stStep, get_tokens, h, Bool.false_eq_true, if_false]
      exact ⟨trivial, trivial⟩
  | opSetTokens v kc writeOk =>
      simp only [stStep, set_tokens, h, Bool.false_eq_true, if_false]
      exact ⟨trivial, update_file_data_kcTouches _ writeOk w⟩
  | opGetClientInfo kc readOk =>
      simp only [stStep, get_client_info, h, Bool.false_eq_true, if_false]
      exact ⟨trivial, trivial⟩
  | opSetClientInfo v kc writeOk =>
      simp only [stStep, set_client_info, h, Bool.false_eq_true, if_false]
      exact ⟨trivial, update_file_data_kcTouches _ writeOk w⟩

theorem runOps_disabled (ops : List StOp) : ∀ (s : Store) (w : StoreWorld),
    s.keychain_enabled = false →
    (runOps s w ops).1.keychain_enabled = false ∧
    (runOps s w ops).2.kcTouches = w.kcTouches := by
  induction ops with
  | nil => intro s w h; exact ⟨h, rfl⟩
  | cons op rest ih =>
      intro s w h
      have hstep := stStep_disabled s w op h
      have hrec := ih (stStep s w op).1 (stStep s w op).2 (by rw [hstep.1]; exact h)
      exact ⟨hrec.1, hrec.2.trans hstep.2⟩

/-- C5: the keychain-availability flag is monotone for every store
instance: a single operation never re-enables a disabled keychain (so the
flag transitions at most once, from enabled to disabled, and never back),
and once it is disabled, any sequence of `get_tokens` / `set_tokens` /
`get_client_info` / `set_client_info` operations leaves it disabled and
performs zero further keyring API touches — every operation runs purely on
the file tier. -/
theorem C5_keychain_flag_monotone (s : Store) (w : StoreWorld) :
    (∀ op, (stStep s w op).1.keychain_enabled = true → s.keychain_enabled = true) ∧
    (s.keychain_enabled = false → ∀ ops : List StOp,
      (runOps s w ops).1.keychain_enabled = false ∧
      (runOps s w ops).2.kcTouches = w.kcTouches) := by
  constructor
  · intro op hop
    by_cases h : s.keychain_enabled = true
    · exact h
    · have hf : s.keychain_enabled = false := by
        cases hb : s.keychain_enabled with
        | false => rfl
        | true => exact absurd hb h
      rw [(stStep_disabled s w op hf).1] at hop
      exact hop
  · intro h ops
    exact runOps_disabled ops s w h

/-- C5 witness: starting from a disabled store, a get followed by a set
leaves the flag disabled and the keyring untouched. -/
theorem C5_witness :
    (runOps sOff wFile [StOp.opGetTokens (KcRes.ok none) true,
        StOp.opSetTokens "t" (KcRes.ok ()) true]).1.keychain_enabled = false ∧
    (runOps sOff wFile [StOp.opGetTokens (KcRes.ok none) true,
        StOp.opSetTokens "t" (KcRes.ok ()) true]).2.kcTouches = wFile.kcTouches :=
  (C5_keychain_flag_monotone sOff wFile).2 rfl
    [StOp.opGetTokens (KcRes.ok none) true, StOp.opSetTokens "t" (KcRes.ok ()) true]

/-- C3 counterexample: with the keychain disabled and the fallback file
present but failing to read, `get_tokens` returns the normal result
`None` — the read error is not surfaced to the caller, contradicting the
claim that failing file reads re-raise. -/
theorem C3_counterexample :
    (get_tokens (KcRes.ok none) false sOff wFile).1 = Except.ok none ∧
    (Except.ok none : Except Unit (Option String)) ≠ Except.error () :=
  ⟨rfl, fun h => Except.noConfusion h⟩

/-- C3 amended: file-tier *write* errors (`set_tokens` / `set_client_info`
falling back to `_update_file_data`) are re-raised to the caller; file-tier
*read* errors in `get_tokens` / `get_client_info` are caught and logged and
yield `None` like a missing credential — the get operations never surface
an error at all; keychain-tier errors are never surfaced (a keychain write
failure with a healthy file still returns success). -/
theorem C3_amended_error_surfacing :
    (∀ (v : String) (kc : KcRes Unit) (s : Store) (w : StoreWorld),
      s.keychain_enabled = false → set_tokens v kc false s w = (Except.error (), s, w)) ∧
    (∀ (v : String) (kc : KcRes Unit) (s : Store) (w : StoreWorld),
      s.keychain_enabled = false → set_client_info v kc false s w = (Except.error (), s, w)) ∧
    (∀ (kc : KcRes (Option String)) (s : Store) (w : StoreWorld),
      s.keychain_enabled = false → (get_tokens kc false s w).1 = Except.ok none) ∧
    (∀ (kc : KcRes (Option String)) (s : Store) (w : StoreWorld),
      s.keychain_enabled = false → (get_client_info kc false s w).1 = Except.ok none) ∧
    (∀ (kc : KcRes (Option String)) (readOk : Bool) (s : Store) (w : StoreWorld),
      ∃ o, (get_tokens kc readOk s w).1 = Except.ok o) ∧
    (∀ (kc : KcRes (Option String)) (readOk : Bool) (s : Store) (w : StoreWorld),
      ∃ o, (get_client_info kc readOk s w).1 = Except.ok o) ∧
    (∀ (v : String) (s : Store) (w : StoreWorld),
      s.keychain_enabled = true → (set_tokens v KcRes.err true s w).1 = Except.ok ()) := by
  refine ⟨?_, ?_, ?_, ?_, ?_, ?_, ?_⟩
  · intro v kc s w h
    simp [set_tokens, update_file_data, h]
  · intro v kc s w h
    simp [set_client_info, update_file_data, h]
  · intro kc s w h
    simp only [get_tokens, h, Bool.false_eq_true, if_false]
    unfold read_file_key
    cases w.file <;> simp
  · intro kc s w h
    simp only [get_client_info, h, Bool.false_eq_true, if_false]
    unfold read_file_key
    cases w.file <;> simp
  · intro kc readOk s w
    unfold get_tokens
    by_cases h : s.keychain_enabled = true
    · simp only [h, if_true]
      cases kc with
      | ok o => cases o <;> exact ⟨_, rfl⟩
      | err => exact ⟨_, rfl⟩
    · simp only [h, if_false]
      exact ⟨_, rfl⟩
  · intro kc readOk s w
    unfold get_client_info
    by_cases h : s.keychain_enabled = true
    · simp only [h, if_true]
      cases kc with
      | ok o => cases o <;> exact ⟨_, rfl⟩
      | err => exact ⟨_, rfl⟩
    · simp only [h, if_false]
      exact ⟨_, rfl⟩
  · intro v s w h
    simp [set_tokens, update_file_data, h]

/-- C3 witness: concrete instances of the amended behaviours — a failing
file write on a disabled store surfaces the error, and a keychain write
failure with a healthy file returns success. -/
theorem C3_amended_witness :
    set_tokens "v" (KcRes.ok ()) false sOff wFile = (Except.error (), sOff, wFile) ∧
    (∃ o, (get_tokens KcRes.err false sOn wFile).1 = Except.ok o) ∧
    (set_tokens "v" KcRes.err true sOn wFile).1 = Except.ok () :=
  ⟨C3_amended_error_surfacing.1 "v" (KcRes.ok ()) sOff wFile rfl,
   C3_amended_error_surfacing.2.2.2.2.1 KcRes.err false sOn wFile,
   C3_amended_error_surfacing.2.2.2.2.2.2 "v" sOn wFile rfl⟩

/-- C8: writes to the fallback file are read-modify-write merges: with a
prior file content `d`, after `set_tokens` the file holds a document whose
`tokens` key is the new value and whose every other key (including
`client_info`) keeps its previous value, and symmetrically after
`set_client_info` only the `client_info` key differs. -/
theorem C8_file_merge (d : String → Option String) (v : String) (s : Store) (w : StoreWorld)
    (kc : KcRes Unit)
    (hs : s.keychain_enabled = false) (hf : w.file = some d) :
    (∃ d', (set_tokens v kc true s w).2.2.file = some d' ∧
      d' "tokens" = some v ∧ ∀ k, k ≠ "tokens" → d' k = d k) ∧
    (∃ d', (set_client_info v kc true s w).2.2.file = some d' ∧
      d' "client_info" = some v ∧ ∀ k, k ≠ "client_info" → d' k = d k) := by
  constructor
  · simp only [set_tokens, hs, Bool.false_eq_true, if_false, update_file_data, if_true, hf]
    refine ⟨_, rfl, ?_, ?_⟩
    · simp [alookup]
    · intro k hk
      simp [alookup, if_neg (fun hh : "tokens" = k => hk hh.symm)]
  · simp only [set_client_info, hs, Bool.false_eq_true, if_false, update_file_data, if_true, hf]
    refine ⟨_, rfl, ?_, ?_⟩
    · simp [alookup]
    · intro k hk
      simp [alookup, if_neg (fun hh : "client_info" = k => hk hh.symm)]

/-- C8 witness: on the concrete file holding `tokens`, `client_info` and an
unrelated `extra` key, `set_tokens` rewrites `tokens` and preserves the
other two, and `set_client_info` symmetrically. -/
theorem C8_witness :
    (∃ d', (set_tokens "newTok" (KcRes.ok ()) true sOff wFile).2.2.file = some d' ∧
      d' "tokens" = some "newTok" ∧ ∀ k, k ≠ "tokens" → d' k = dFile k) ∧
    (∃ d', (set_client_info "newCI" (KcRes.ok ()) true sOff wFile).2.2.file = some d' ∧
      d' "client_info" = some "newCI" ∧ ∀ k, k ≠ "client_info" → d' k = dFile k) :=
  ⟨(C8_file_merge dFile "newTok" sOff wFile (KcRes.ok ()) rfl rfl).1,
   (C8_file_merge dFile "newCI" sOff wFile (KcRes.ok ()) rfl rfl).2⟩

theorem resolveIfPending_fut_frozen (a : AuthSt) (v : FutVal)
    (h : a.fut = none ∨ ∃ x, a.fut = some (some x)) :
    (resolveIfPending a v).fut = a.fut := by
  unfold resolveIfPending
  rcases h with h | ⟨x, h⟩ <;> rw [h] <;> exact h

theorem callback_endpoint_resp_independent (q : String → Option String) (a b : AuthSt) :
    (callback_endpoint q a).1 = (callback_endpoint q b).1 := by
  unfold callback_endpoint afterErrorCheck handleNoCode handleSuccess
  cases q "error" with
  | none =>
      cases q "code" with
      | none => rfl
      | some c => by_cases hc : c = "" <;> simp [hc]
  | some e =>
      by_cases he : e = ""
      · simp only [he, if_true]
        cases q "code" with
        | none => rfl
        | some c => by_cases hc : c = "" <;> simp [hc]
      · simp [he]

/-- C6 counterexample: a callback whose query contains the (empty-valued)
parameter `error=` while a pending authorization is registered is treated
by the Python truthiness test as carrying no error at all: the pending
result is resolved with the failure `No authorization code received`, not
with the `OAuth error: <error> - <error_description>` message the claim
requires. -/
theorem C6_counterexample :
    (callback_endpoint qEmptyError aPending).1.status = 400 ∧
    (callback_endpoint qEmptyError aPending).2.fut =
      some (some (FutVal.exn "No authorization code received")) ∧
    "No authorization code received" ≠ "OAuth error:  - Unknown error" := by
  refine ⟨rfl, rfl, ?_⟩
  decide

/-- C6 amended: for every callback whose query contains a *non-empty*
`error` parameter, while a pending authorization is registered and
unresolved, the pending result is resolved as a failure whose message is
exactly `OAuth error: <error> - <error_description>` (with
`Unknown error` substituted when the `error_description` key is absent),
and the HTTP response has status 400. -/
theorem C6_amended_error_callback (q : String → Option String) (a : AuthSt) (e : String)
    (he : q "error" = some e) (hne : e ≠ "")
    (hp : a.fut = some none) (hl : a.loopSet = true) :
    (callback_endpoint q a).1.status = 400 ∧
    (callback_endpoint q a).2.fut = some (some (FutVal.exn
      ("OAuth error: " ++ e ++ " - " ++ (q "error_description").getD "Unknown error"))) := by
  unfold callback_endpoint
  simp only [he]
  rw [if_neg hne]
  refine ⟨rfl, ?_⟩
  unfold resolveIfPending
  rw [hp]
  simp [hl]

/-- C6 witness: the callback
`error=access_denied&error_description=User declined` on a registered
pending authorization resolves it as the failure
`OAuth error: access_denied - User declined` and answers HTTP 400. -/
theorem C6_amended_witness :
    (callback_endpoint qDenied aPending).1.status = 400 ∧
    (callback_endpoint qDenied aPending).2.fut = some (some (FutVal.exn
      ("OAuth error: " ++ "access_denied" ++ " - "
        ++ (qDenied "error_description").getD "Unknown error"))) :=
  C6_amended_error_callback qDenied aPending "access_denied" rfl (by decide) rfl rfl

/-- C7: a callback that arrives when no pending result is registered, or
when the registered result is already resolved, does not resolve anything
(the future field is left exactly as it was, so an already-resolved value
is untouched), does not crash (the handler is total), and returns to the
browser exactly the response it would return with a registered pending
result. -/
theorem C7_no_pending_still_responds (q : String → Option String) (a : AuthSt)
    (h : a.fut = none ∨ ∃ v, a.fut = some (some v)) :
    (callback_endpoint q a).1 =
      (callback_endpoint q { a with fut := some none, loopSet := true }).1 ∧
    (callback_endpoint q a).2.fut = a.fut := by
  refine ⟨callback_endpoint_resp_independent q a _, ?_⟩
  unfold callback_endpoint afterErrorCheck handleNoCode handleSuccess
  cases hqe : q "error" with
  | none =>
      cases hqc : q "code" with
      | none => exact resolveIfPending_fut_frozen a _ h
      | some c =>
          by_cases hc : c = ""
          · simp only [hc, if_true]
            exact resolveIfPending_fut_frozen a _ h
          · simp only [hc, if_false]
            exact resolveIfPending_fut_frozen
              { a with cbCode := some c, cbState := q "state" } _ h
  | some e =>
      by_cases he : e = ""
      · simp only [he, if_true]
        cases hqc : q "code" with
        | none => exact resolveIfPending_fut_frozen a _ h
        | some c =>
            by_cases hc : c = ""
            · simp only [hc, if_true]
              exact resolveIfPending_fut_frozen a _ h
            · simp only [hc, if_false]
              exact resolveIfPending_fut_frozen
                { a with cbCode := some c, cbState := q "state" } _ h
      · simp only [he, if_false]
        exact resolveIfPending_fut_frozen a _ h

/-- C7 witness: a `code=abc123&state=xyz` callback on an auth server with
no registered future returns the same response as it would with a pending
result registered, and resolves nothing. -/
theorem C7_witness :
    (callback_endpoint qCode aIdle).1 =
      (callback_endpoint qCode { aIdle with fut := some none, loopSet := true }).1 ∧
    (callback_endpoint qCode aIdle).2.fut = aIdle.fut :=
  C7_no_pending_still_responds qCode aIdle (Or.inl rfl)
